import Mathlib

/-!
Verification of the JustInsurance student-progress dashboard (React SPA over a
Flask backend).  JavaScript strings are embedded as `List Char` (`JStr`);
JavaScript numbers appearing in the verified code paths are integers or exact
rationals, embedded as `Int` / `ℚ`.  `Array.prototype.sort` (guaranteed stable
by the ECMAScript specification) is embedded as a stable insertion sort
`jsSort` parameterised by the boolean ordering derived from the comparator in
the source.  Fallible HTTP interactions are embedded as explicit outcome data
passed to pure state-transition functions mirroring the event handlers.
-/

/-- JavaScript strings, embedded as lists of characters. -/
abbrev JStr := List Char

/-- Embedding of `String.prototype.toLowerCase` (ASCII-adequate). -/
def jsToLower (s : JStr) : JStr := s.map Char.toLower

/-- Embedding of `String.prototype.toUpperCase` (ASCII-adequate). -/
def jsToUpper (s : JStr) : JStr := s.map Char.toUpper

/-- JavaScript whitespace test used by `String.prototype.trim`. -/
def jsIsSpace (c : Char) : Bool := c = ' ' || c = '\t' || c = '\n' || c = '\r'

/-- Embedding of `String.prototype.trim`. -/
def jsTrim (s : JStr) : JStr :=
  ((s.dropWhile jsIsSpace).reverse.dropWhile jsIsSpace).reverse

/-- Does `hay` start with `needle`?  Helper for `includesJ`. -/
def startsWithJ : JStr → JStr → Bool
  | _, [] => true
  | [], _ :: _ => false
  | h :: hs, n :: ns => h == n && startsWithJ hs ns

/-- Embedding of `String.prototype.includes`: substring containment. -/
def includesJ : JStr → JStr → Bool
  | [], needle => needle.isEmpty
  | h :: t, needle => startsWithJ (h :: t) needle || includesJ t needle

/-- Embedding of `x || ''` on an optional string (null/undefined becomes empty). -/
def orEmpty : Option JStr → JStr
  | none => []
  | some s => s

/-- Embedding of `x || 0` on an optional number. -/
def orZero : Option Int → Int
  | none => 0
  | some n => n

/-- Stable insertion step: `x` is placed before the first element `y` with
`le x y`, matching the position a stable comparator sort gives `x` relative to
elements that compared equal. -/
def insertS (le : α → α → Bool) (x : α) : List α → List α
  | [] => [x]
  | y :: ys => if le x y then x :: y :: ys else y :: insertS le x ys

/-- Stable sort modelling `Array.prototype.sort` with comparator-derived
boolean order `le` (ECMAScript requires sort stability). -/
def jsSort (le : α → α → Bool) : List α → List α
  | [] => []
  | x :: xs => insertS le x (jsSort le xs)

theorem mem_insertS (le : α → α → Bool) (x : α) (l : List α) (y : α) :
    y ∈ insertS le x l ↔ y = x ∨ y ∈ l := by
  induction l with
  | nil => simp [insertS]
  | cons h t ih =>
    simp only [insertS]
    by_cases hc : le x h = true
    · simp [hc]
    · simp only [if_neg hc, List.mem_cons, ih]
      tauto

theorem mem_jsSort (le : α → α → Bool) (l : List α) (y : α) :
    y ∈ jsSort le l ↔ y ∈ l := by
  induction l with
  | nil => simp [jsSort]
  | cons h t ih => simp [jsSort, mem_insertS, ih]

theorem filter_insertS_pos (le : α → α → Bool) (p : α → Bool) (x : α) (l : List α)
    (hx : p x = true) (h : ∀ y ∈ l, p y = true → le x y = true) :
    (insertS le x l).filter p = x :: l.filter p := by
  induction l with
  | nil => simp [insertS, hx]
  | cons y ys ih =>
    simp only [insertS]
    by_cases hc : le x y = true
    · simp [hc, hx]
    · have hy : p y = false := by
        cases hpy : p y with
        | false => rfl
        | true => exact absurd (h y (by simp) hpy) hc
      simp only [if_neg hc, List.filter_cons, hy]
      simp only [Bool.false_eq_true, if_false]
      exact ih (fun z hz hpz => h z (by simp [hz]) hpz)

theorem filter_insertS_neg (le : α → α → Bool) (p : α → Bool) (x : α) (l : List α)
    (hx : p x = false) :
    (insertS le x l).filter p = l.filter p := by
  induction l with
  | nil => simp [insertS, hx]
  | cons y ys ih =>
    simp only [insertS]
    by_cases hc : le x y = true
    · simp [hc, hx]
    · simp only [if_neg hc, List.filter_cons]
      cases hpy : p y with
      | false => simpa [hpy] using ih
      | true => simp [hpy, ih]

/-- Stability of `jsSort`: any class of rows that the boolean order cannot
separate (every pair satisfies `le` in the relevant direction) keeps exactly
its original relative order. -/
theorem filter_jsSort (le : α → α → Bool) (p : α → Bool) (l : List α)
    (h : ∀ a ∈ l, ∀ b ∈ l, p a = true → p b = true → le a b = true) :
    (jsSort le l).filter p = l.filter p := by
  induction l with
  | nil => simp [jsSort]
  | cons x xs ih =>
    simp only [jsSort]
    have hrec : (jsSort le xs).filter p = xs.filter p :=
      ih (fun a ha b hb hpa hpb => h a (by simp [ha]) b (by simp [hb]) hpa hpb)
    cases hx : p x with
    | true =>
      rw [filter_insertS_pos le p x (jsSort le xs) hx]
      · simp [hrec, List.filter_cons, hx]
      · intro y hy hpy
        exact h x (by simp) y (by simp [(mem_jsSort le xs y).mp hy]) hx hpy
    | false =>
      rw [filter_insertS_neg le p x (jsSort le xs) hx]
      simp [hrec, List.filter_cons, hx]

/-- Derived status badge attached to each student row by the backend
(`status.status` is the label shown, `status.priority` drives sorting). -/
structure StatusInfo where
  status : JStr
  priority : Int
deriving DecidableEq

/-- Student row as served by `/api/dashboard/students` and consumed by
`Dashboard.jsx` / `StudentTable.jsx`.  `lastLoginTs` embeds `lastLogin.raw`
as the timestamp `new Date(raw).getTime()` yields, `none` for a missing raw
value; `progressValue` embeds `progress.value`. -/
structure Student where
  fullName : JStr
  email : JStr
  departmentName : Option JStr
  status : StatusInfo
  lastLoginTs : Option Int
  progressValue : Int
  courseName : JStr
deriving DecidableEq

/-- Per-course enrollment record rendered in the student modal.
`courseName` is optional because the source guards it with `|| ''`. -/
structure Enrollment where
  courseName : Option JStr
  enrollStatus : Int
  progressValue : Option Int
  timeSpentMinutes : Int
deriving DecidableEq

/-- Course-name test for the pre-licensing bucket (`isPreLicensingCourse` in
`StudentModal`). -/
def isPreLicensingCourse (name : JStr) : Bool :=
  let lower := jsToLower name
  includesJ lower "pre-licens".toList || includesJ lower "prelicens".toList ||
    includesJ lower "pre licens".toList

/-- Course-name test for chapter/module/lesson/unit courses
(`isChapterOrModule` in `StudentModal`). -/
def isChapterOrModule (name : JStr) : Bool :=
  let lower := jsToLower name
  includesJ lower "module".toList || includesJ lower "chapter".toList ||
    includesJ lower "lesson".toList || includesJ lower "unit".toList

/-- Course-name test for the exam-prep bucket (`isExamPrepCourse` in
`StudentModal`). -/
def isExamPrepCourse (name : JStr) : Bool :=
  let lower := jsToLower name
  includesJ lower "practice".toList || includesJ lower "prep".toList ||
    includesJ lower "study".toList

/-- Result object of `categorizeEnrollments`. -/
structure Categorized where
  preLicensing : List Enrollment
  examPrep : List Enrollment
  other : List Enrollment
deriving DecidableEq

/-- Embedding of `categorizeEnrollments` from `StudentModal`: a single
forward pass pushing each enrollment into exactly one bucket, with
pre-licensing taking precedence over chapter/module, which takes precedence
over exam-prep, with a final catch-all. -/
def categorizeEnrollments : List Enrollment → Categorized
  | [] => ⟨[], [], []⟩
  | e :: rest =>
    let c := categorizeEnrollments rest
    let name := orEmpty e.courseName
    if isPreLicensingCourse name then
      ⟨e :: c.preLicensing, c.examPrep, c.other⟩
    else if isChapterOrModule name then
      ⟨e :: c.preLicensing, c.examPrep, c.other⟩
    else if isExamPrepCourse name then
      ⟨c.preLicensing, e :: c.examPrep, c.other⟩
    else
      ⟨c.preLicensing, c.examPrep, e :: c.other⟩

/-- Membership predicate of the pre-licensing bucket, as the claimed
precedence describes it. -/
def inPreBucket (e : Enrollment) : Bool :=
  isPreLicensingCourse (orEmpty e.courseName) || isChapterOrModule (orEmpty e.courseName)

/-- Membership predicate of the exam-prep bucket. -/
def inExamPrepBucket (e : Enrollment) : Bool :=
  !inPreBucket e && isExamPrepCourse (orEmpty e.courseName)

/-- Membership predicate of the catch-all bucket. -/
def inOtherBucket (e : Enrollment) : Bool :=
  !inPreBucket e && !isExamPrepCourse (orEmpty e.courseName)

theorem filter_buckets_length (es : List Enrollment) :
    (es.filter inPreBucket).length + (es.filter inExamPrepBucket).length +
      (es.filter inOtherBucket).length = es.length := by
  induction es with
  | nil => rfl
  | cons e rest ih =>
    simp only [List.filter_cons]
    by_cases hp : inPreBucket e = true
    · have hq : inExamPrepBucket e = false := by simp [inExamPrepBucket, hp]
      have hr : inOtherBucket e = false := by simp [inOtherBucket, hp]
      simp only [hp, hq, hr, Bool.false_eq_true, if_true, if_false, List.length_cons]
      omega
    · by_cases hx : isExamPrepCourse (orEmpty e.courseName) = true
      · have hq : inExamPrepBucket e = true := by simp [inExamPrepBucket, hp, hx]
        have hr : inOtherBucket e = false := by simp [inOtherBucket, hp, hx]
        simp only [hp, hq, hr, Bool.false_eq_true, if_true, if_false, List.length_cons]
        omega
      · have hq : inExamPrepBucket e = false := by simp [inExamPrepBucket, hp, hx]
        have hr : inOtherBucket e = true := by simp [inOtherBucket, hp, hx]
        simp only [hp, hq, hr, Bool.false_eq_true, if_true, if_false, List.length_cons]
        omega

/-- C7: every enrollment lands in exactly one of the three buckets, decided
by case-insensitive substring precedence on the course name: pre-licensing
spellings first, then module/chapter/lesson/unit, then practice/prep/study,
then the catch-all.  The buckets are exactly the order-preserving filters of
the input by the three mutually exclusive, jointly exhaustive predicates, so
bucket sizes sum to the input length. -/
theorem categorize_enrollments_partition (es : List Enrollment) :
    (categorizeEnrollments es).preLicensing = es.filter inPreBucket ∧
    (categorizeEnrollments es).examPrep = es.filter inExamPrepBucket ∧
    (categorizeEnrollments es).other = es.filter inOtherBucket ∧
    (categorizeEnrollments es).preLicensing.length +
      (categorizeEnrollments es).examPrep.length +
      (categorizeEnrollments es).other.length = es.length ∧
    (∀ e : Enrollment,
      (inPreBucket e || inExamPrepBucket e || inOtherBucket e) = true ∧
      (inPreBucket e && inExamPrepBucket e) = false ∧
      (inPreBucket e && inOtherBucket e) = false ∧
      (inExamPrepBucket e && inOtherBucket e) = false) := by
  have hbuckets : ∀ l : List Enrollment,
      (categorizeEnrollments l).preLicensing = l.filter inPreBucket ∧
      (categorizeEnrollments l).examPrep = l.filter inExamPrepBucket ∧
      (categorizeEnrollments l).other = l.filter inOtherBucket := by
    intro l
    induction l with
    | nil => exact ⟨rfl, rfl, rfl⟩
    | cons e rest ih =>
      obtain ⟨h1, h2, h3⟩ := ih
      by_cases hp : isPreLicensingCourse (orEmpty e.courseName) = true
      · simp [categorizeEnrollments, hp, List.filter_cons, inPreBucket,
          inExamPrepBucket, inOtherBucket, h1, h2, h3]
      · by_cases hm : isChapterOrModule (orEmpty e.courseName) = true
        · simp [categorizeEnrollments, hp, hm, List.filter_cons, inPreBucket,
            inExamPrepBucket, inOtherBucket, h1, h2, h3]
        · by_cases hx : isExamPrepCourse (orEmpty e.courseName) = true
          · simp [categorizeEnrollments, hp, hm, hx, List.filter_cons, inPreBucket,
              inExamPrepBucket, inOtherBucket, h1, h2, h3]
          · simp [categorizeEnrollments, hp, hm, hx, List.filter_cons, inPreBucket,
              inExamPrepBucket, inOtherBucket, h1, h2, h3]
  obtain ⟨h1, h2, h3⟩ := hbuckets es
  refine ⟨h1, h2, h3, ?_, ?_⟩
  · rw [h1, h2, h3]
    exact filter_buckets_length es
  · intro e
    cases hp : inPreBucket e <;>
      cases hx : isExamPrepCourse (orEmpty e.courseName) <;>
        simp [inExamPrepBucket, inOtherBucket, hp, hx]

/-- JavaScript `<` on strings: lexicographic comparison by code unit. -/
def lexLt : JStr → JStr → Bool
  | [], [] => false
  | [], _ :: _ => true
  | _ :: _, [] => false
  | a :: as, b :: bs => if a < b then true else if b < a then false else lexLt as bs

/-- JavaScript `<` on numbers, at integer values. -/
def intLt (a b : Int) : Bool := decide (a < b)

theorem lexLt_irrefl (s : JStr) : lexLt s s = false := by
  induction s with
  | nil => rfl
  | cons a as ih => simp [lexLt, ih]

theorem intLt_irrefl (a : Int) : intLt a a = false := by
  simp [intLt]

/-- Embedding of the comparator pattern in `StudentTable.jsx` lines 18-54:
`sort((a, b) => { if (aValue < bValue) return dir ? -1 : 1; ... })`.
An element `a` may precede `b` exactly when the comparator is nonpositive,
which for the ascending direction is `!(key b < key a)` and for descending is
`!(key a < key b)`. -/
def jsSortBy (lt : K → K → Bool) (key : α → K) (asc : Bool) (l : List α) : List α :=
  jsSort (fun a b => if asc then !(lt (key b) (key a)) else !(lt (key a) (key b))) l

theorem jsSortBy_stable (lt : K → K → Bool) (key : α → K)
    (hirr : ∀ x, lt x x = false) (asc : Bool) (p : α → Bool) (l : List α)
    (h : ∀ a ∈ l, ∀ b ∈ l, p a = true → p b = true → key a = key b) :
    (jsSortBy lt key asc l).filter p = l.filter p := by
  apply filter_jsSort
  intro a ha b hb hpa hpb
  have hk := h a ha b hb hpa hpb
  cases asc <;> simp [hk, hirr]

/-- Sortable columns of the student table (`handleSort` fields). -/
inductive SortField
  | name
  | status
  | lastLogin
  | progress
  | course
  | department
deriving DecidableEq

/-- Sort key for the `name` column: `a.fullName.toLowerCase()`. -/
def keyName (s : Student) : JStr := jsToLower s.fullName

/-- Sort key for the `status` column: `a.status.priority`. -/
def keyStatus (s : Student) : Int := s.status.priority

/-- Sort key for the `lastLogin` column:
`a.lastLogin.raw ? new Date(a.lastLogin.raw).getTime() : 0`. -/
def keyLastLogin (s : Student) : Int :=
  match s.lastLoginTs with
  | some t => t
  | none => 0

/-- Sort key for the `progress` column: `a.progress.value`. -/
def keyProgress (s : Student) : Int := s.progressValue

/-- Sort key for the `course` column: `a.courseName.toLowerCase()`. -/
def keyCourse (s : Student) : JStr := jsToLower s.courseName

/-- Sort key for the `department` column:
`(a.departmentName || '').toLowerCase()`. -/
def keyDepartment (s : Student) : JStr := jsToLower (orEmpty s.departmentName)

/-- Embedding of `sortedStudents` from `StudentTable.jsx`: dispatch the
column key, then sort `[...students]` with the comparator, `asc = true` for
the ascending direction. -/
def sortedStudents (f : SortField) (asc : Bool) (l : List Student) : List Student :=
  match f with
  | .name => jsSortBy lexLt keyName asc l
  | .status => jsSortBy intLt keyStatus asc l
  | .lastLogin => jsSortBy intLt keyLastLogin asc l
  | .progress => jsSortBy intLt keyProgress asc l
  | .course => jsSortBy lexLt keyCourse asc l
  | .department => jsSortBy lexLt keyDepartment asc l

/-- Two rows carry equal sort keys for the given column. -/
def sameKey (f : SortField) (a b : Student) : Bool :=
  match f with
  | .name => decide (keyName a = keyName b)
  | .status => decide (keyStatus a = keyStatus b)
  | .lastLogin => decide (keyLastLogin a = keyLastLogin b)
  | .progress => decide (keyProgress a = keyProgress b)
  | .course => decide (keyCourse a = keyCourse b)
  | .department => decide (keyDepartment a = keyDepartment b)

/-- C3: sorting the student table by any column is stable and reversible.
Every class of rows with pairwise equal keys (given by a predicate `p` that
only holds on rows agreeing on the column key) appears in the ascending sort
in exactly its original relative order, and likewise in the descending sort,
which in the source is also computed from the original `students` prop; in
particular sorting ascending and then descending leaves rows with equal keys
in the original relative order. -/
theorem sort_stable_reversible (f : SortField) (l : List Student) (p : Student → Bool)
    (h : ∀ a ∈ l, ∀ b ∈ l, p a = true → p b = true → sameKey f a b = true) :
    (sortedStudents f true l).filter p = l.filter p ∧
      (sortedStudents f false l).filter p = l.filter p := by
  cases f <;>
    refine ⟨?_, ?_⟩ <;>
      refine jsSortBy_stable _ _ (fun x => by first | exact lexLt_irrefl _ | exact intLt_irrefl _)
        _ p l (fun a ha b hb hpa hpb => ?_) <;>
        simpa [sameKey] using h a ha b hb hpa hpb

/-- Concrete student row used across the witness instantiations. -/
def aliceStudent : Student :=
  ⟨"Alice".toList, "alice@x.com".toList, none, ⟨"active".toList, 1⟩, some 100, 40,
    "Course A".toList⟩

/-- Concrete three-row table for exercising the sorting theorem: two rows
share status priority 1, one has priority 0. -/
def sortWitnessList : List Student :=
  [aliceStudent,
   ⟨"Bob".toList, "bob@x.com".toList, none, ⟨"warning".toList, 0⟩, some 50, 70, "Course B".toList⟩,
   ⟨"Carol".toList, "carol@x.com".toList, none, ⟨"active".toList, 1⟩, some 80, 20, "Course C".toList⟩]

/-- Predicate selecting the rows of `sortWitnessList` with status priority 1. -/
def sortWitnessPred (s : Student) : Bool := decide (s.status.priority = 1)

theorem sort_stable_reversible_witness :
    (sortedStudents SortField.status true sortWitnessList).filter sortWitnessPred =
        sortWitnessList.filter sortWitnessPred ∧
      (sortedStudents SortField.status false sortWitnessList).filter sortWitnessPred =
        sortWitnessList.filter sortWitnessPred :=
  sort_stable_reversible SortField.status sortWitnessList sortWitnessPred (by decide)

/-- Search predicate of the multi-department `filteredStudents` in the
Dashboard component: empty search matches everything, otherwise the
lowercased term must occur in the lowercased full name, email, or department
name. -/
def matchesSearch (term : JStr) (s : Student) : Bool :=
  term.isEmpty || includesJ (jsToLower s.fullName) (jsToLower term) ||
    includesJ (jsToLower s.email) (jsToLower term) ||
    includesJ (jsToLower (orEmpty s.departmentName)) (jsToLower term)

/-- Status predicate of `filteredStudents`: `statusFilter === 'all'` or a
case-insensitive match on the status label. -/
def matchesStatus (statusFilter : JStr) (s : Student) : Bool :=
  statusFilter == "all".toList || jsToLower s.status.status == jsToLower statusFilter

/-- Department predicate of `filteredStudents`: an empty multi-select matches
everything, otherwise the trimmed department name must be a selected entry. -/
def matchesDept (deptFilter : List JStr) (s : Student) : Bool :=
  deptFilter.isEmpty || deptFilter.contains (jsTrim (orEmpty s.departmentName))

/-- Embedding of the multi-department `filteredStudents` computation:
`students.filter(student => matchesSearch && matchesStatus && matchesDept)`. -/
def filteredStudents (term statusFilter : JStr) (deptFilter : List JStr)
    (l : List Student) : List Student :=
  l.filter fun s => matchesSearch term s && matchesStatus statusFilter s &&
    matchesDept deptFilter s

/-- C8: for every student list and filter combination the filtered list is a
subsequence of the input (so the "Showing X of Y students" count satisfies
X ≤ Y), and with an empty search term, the `all` status filter and no
selected departments the filtered list is the input list. -/
theorem filtered_students_subsequence (term statusFilter : JStr)
    (deptFilter : List JStr) (l : List Student) :
    (filteredStudents term statusFilter deptFilter l).Sublist l ∧
      (filteredStudents term statusFilter deptFilter l).length ≤ l.length ∧
      filteredStudents [] ("all".toList) [] l = l := by
  refine ⟨List.filter_sublist l, (List.filter_sublist l).length_le, ?_⟩
  unfold filteredStudents
  rw [List.filter_eq_self]
  intro s _
  simp [matchesSearch, matchesStatus, matchesDept]

/-- Search predicate of the single-department `Dashboard.jsx`
`filteredStudents`: name or email only. -/
def matchesSearchSimple (term : JStr) (s : Student) : Bool :=
  term.isEmpty || includesJ (jsToLower s.fullName) (jsToLower term) ||
    includesJ (jsToLower s.email) (jsToLower term)

/-- Embedding of `filteredStudents` from `Dashboard.jsx` lines 164-176. -/
def filteredStudentsSimple (term statusFilter : JStr) (l : List Student) : List Student :=
  l.filter fun s => matchesSearchSimple term s && matchesStatus statusFilter s

/-- Modelled from the spec: the backend `GET /api/dashboard/export` route
(`backend/routes/dashboard.py`, absent from the repository snapshot) which
per the spec and README performs "Export students as CSV" for the session
department: one data row per student of the full student list.  The request
issued by `handleExport` carries no search or status parameter, so the
response cannot depend on the client-side filters. -/
def exportCsvRows (l : List Student) : List (List JStr) :=
  l.map fun s => [s.fullName, s.email, s.status.status]

/-- C4 counterexample: with the dashboard's three-row data set and the
status filter set to `active`, the filtered list has 2 rows while the
exported CSV has 3 data rows, so the export row count does not equal the
filtered student count for every active filter combination. -/
theorem export_rowcount_counterexample :
    ¬((exportCsvRows sortWitnessList).length =
        (filteredStudentsSimple [] ("active".toList) sortWitnessList).length) := by
  decide

/-- C4 amended: the CSV produced by the export operation has exactly one data
row per student of the full (unfiltered) student list; it therefore equals
the filtered student count exactly when the search term is empty and the
status filter is `all` (the filters the export request does not transmit). -/
theorem export_rowcount_amended (l : List Student) (term statusFilter : JStr) :
    (exportCsvRows l).length = l.length ∧
      (term = [] → statusFilter = "all".toList →
        (filteredStudentsSimple term statusFilter l).length = (exportCsvRows l).length) := by
  constructor
  · simp [exportCsvRows]
  · intro ht hs
    subst ht hs
    have h : filteredStudentsSimple [] ("all".toList) l = l := by
      unfold filteredStudentsSimple
      rw [List.filter_eq_self]
      intro s _
      simp [matchesSearchSimple, matchesStatus]
    rw [h]
    simp [exportCsvRows]

theorem export_rowcount_amended_witness :
    (exportCsvRows sortWitnessList).length = sortWitnessList.length ∧
      (filteredStudentsSimple [] ("all".toList) sortWitnessList).length =
        (exportCsvRows sortWitnessList).length :=
  ⟨(export_rowcount_amended sortWitnessList [] ("all".toList)).1,
   (export_rowcount_amended sortWitnessList [] ("all".toList)).2 rfl rfl⟩

/-- Exam-tab row joined from the Google-Sheet data, with the fields the exam
handlers read.  `matched` is a JS value that can be `true`, `false` or
absent, so it is an `Option Bool`; `progressValue` embeds `progress?.value`. -/
structure ExamStudent where
  fullName : JStr
  email : JStr
  passFail : Option JStr
  examDateRaw : Option JStr
  matched : Option Bool
  progressValue : Option Int
deriving DecidableEq

/-- KPI summary of the exam tab. -/
structure ExamSummary where
  total : Int
  passed : Int
  failed : Int
  upcoming : Int
  atRisk : Int
  passRate : ℚ
  noResult : Int
deriving DecidableEq

/-- An HTTP response as the fetch handlers see it: a status code and an
optional parsed JSON body (`none` embeds a body whose `res.json()` throws). -/
structure HttpResp (β : Type) where
  status : Int
  body : Option β
deriving DecidableEq

/-- Embedding of `res.ok`: status in the 200-299 range. -/
def respOk (r : HttpResp β) : Bool := decide (200 ≤ r.status ∧ r.status < 300)

/-- JSON payload of `/api/dashboard/summary`; the summary record itself is
opaque to the fetch handler, embedded as an integer. -/
structure SummaryPayload where
  success : Bool
  summary : Int
deriving DecidableEq

/-- JSON payload of `/api/dashboard/students`. -/
structure StudentsPayload where
  success : Bool
  students : List Student
deriving DecidableEq

/-- JSON payload of `/api/exam/students`. -/
structure ExamPayload where
  success : Bool
  students : List ExamStudent
  examSummary : ExamSummary
deriving DecidableEq

/-- Client state touched by `fetchDashboardData`. -/
structure DashState where
  loggedIn : Bool
  students : List Student
  summary : Option Int
  error : Option JStr
deriving DecidableEq

/-- Client state touched by `fetchExamData`. -/
structure ExamState where
  loggedIn : Bool
  examStudents : List ExamStudent
  examSummary : Option ExamSummary
  examLoaded : Bool
  error : Option JStr
deriving DecidableEq

/-- Outcome of the parallel summary/students fetch: either the whole fetch
throws (network failure) or both responses arrive. -/
inductive FetchOutcome
  | networkError
  | got (summaryRes : HttpResp SummaryPayload) (studentsRes : HttpResp StudentsPayload)
deriving DecidableEq

/-- Outcome of the single exam-students fetch. -/
inductive ExamFetchOutcome
  | networkError
  | got (res : HttpResp ExamPayload)
deriving DecidableEq

/-- Banner text set by the dashboard fetch failure path. -/
def errDashboardMsg : JStr := "Failed to load dashboard data. Please try again.".toList

/-- Banner text set by the exam fetch failure path. -/
def errExamMsg : JStr := "Failed to load exam data. Please try again.".toList

/-- Embedding of `fetchDashboardData` from `Dashboard.jsx` lines 67-104:
clear the banner, await both responses, log out on any 401, otherwise raise
the banner on any HTTP/parse/network failure, and update each slice of data
only when its payload reports success. -/
def fetchDashboardData (st : DashState) (o : FetchOutcome) : DashState :=
  let st0 := { st with error := none }
  match o with
  | .networkError => { st0 with error := some errDashboardMsg }
  | .got sRes stRes =>
    if !(respOk sRes && respOk stRes) then
      if sRes.status == 401 || stRes.status == 401 then
        { st0 with loggedIn := false }
      else
        { st0 with error := some errDashboardMsg }
    else
      match sRes.body, stRes.body with
      | some sd, some td =>
        let st1 := if sd.success then { st0 with summary := some sd.summary } else st0
        if td.success then { st1 with students := td.students } else st1
      | _, _ => { st0 with error := some errDashboardMsg }

/-- Embedding of `fetchExamData` from the multi-department Dashboard
component: log out on 401, raise the banner on any other failure, and store
the students and summary only when the payload reports success. -/
def fetchExamData (st : ExamState) (o : ExamFetchOutcome) : ExamState :=
  match o with
  | .networkError => { st with error := some errExamMsg }
  | .got res =>
    if !respOk res then
      if res.status == 401 then { st with loggedIn := false }
      else { st with error := some errExamMsg }
    else
      match res.body with
      | some d =>
        if d.success then
          { st with examStudents := d.students, examSummary := some d.examSummary,
                    examLoaded := true }
        else st
      | none => { st with error := some errExamMsg }

/-- Some response of the dashboard fetch outcome carries status 401. -/
def dashHas401 : FetchOutcome → Bool
  | .networkError => false
  | .got sRes stRes => sRes.status == 401 || stRes.status == 401

/-- The dashboard fetch outcome is a failure: the fetch threw, a response is
not ok, or a body could not be parsed. -/
def dashIsFailure : FetchOutcome → Bool
  | .networkError => true
  | .got sRes stRes => !(respOk sRes && respOk stRes) || sRes.body.isNone || stRes.body.isNone

/-- The exam fetch outcome carries status 401. -/
def examHas401 : ExamFetchOutcome → Bool
  | .networkError => false
  | .got res => res.status == 401

/-- The exam fetch outcome is a failure. -/
def examIsFailure : ExamFetchOutcome → Bool
  | .networkError => true
  | .got res => !respOk res || res.body.isNone

/-- C5: fetch failures are handled in exactly one of the two specified ways,
for both `fetchDashboardData` and `fetchExamData`.  Any response with status
401 logs the client out; every other HTTP, parse or network failure leaves
the session and the previously loaded data untouched and raises the inline
banner message. -/
theorem fetch_failure_classification (st : DashState) (est : ExamState)
    (o : FetchOutcome) (eo : ExamFetchOutcome) :
    (dashHas401 o = true → (fetchDashboardData st o).loggedIn = false) ∧
    (dashIsFailure o = true → dashHas401 o = false →
      (fetchDashboardData st o).loggedIn = st.loggedIn ∧
      (fetchDashboardData st o).students = st.students ∧
      (fetchDashboardData st o).summary = st.summary ∧
      (fetchDashboardData st o).error = some errDashboardMsg) ∧
    (examHas401 eo = true → (fetchExamData est eo).loggedIn = false) ∧
    (examIsFailure eo = true → examHas401 eo = false →
      (fetchExamData est eo).loggedIn = est.loggedIn ∧
      (fetchExamData est eo).examStudents = est.examStudents ∧
      (fetchExamData est eo).examSummary = est.examSummary ∧
      (fetchExamData est eo).error = some errExamMsg) := by
  refine ⟨?_, ?_, ?_, ?_⟩
  · intro h
    cases o with
    | networkError => simp [dashHas401] at h
    | got sRes stRes =>
      have hok : (respOk sRes && respOk stRes) = false := by
        simp only [dashHas401, Bool.or_eq_true, beq_iff_eq] at h
        rcases h with h | h <;>
          simp [respOk, h, Bool.and_eq_false_iff]
      simp [fetchDashboardData, hok, dashHas401] at h ⊢
      rcases h with h | h <;> simp [h]
  · intro hf h401
    cases o with
    | networkError => simp [fetchDashboardData]
    | got sRes stRes =>
      simp only [dashHas401, Bool.or_eq_false_iff, beq_eq_false_iff_ne] at h401
      by_cases hok : (respOk sRes && respOk stRes) = true
      · have hbody : sRes.body.isNone || stRes.body.isNone := by
          simp only [dashIsFailure, hok, Bool.not_true, Bool.false_or,
            Bool.or_eq_true] at hf
          simpa using hf
        cases hs : sRes.body with
        | none => simp [fetchDashboardData, hok, hs]
        | some sd =>
          cases ht : stRes.body with
          | none => simp [fetchDashboardData, hok, hs, ht]
          | some td => simp [hs, ht] at hbody
      · have hok' : (respOk sRes && respOk stRes) = false := by
          simpa using hok
        simp [fetchDashboardData, hok', h401.1, h401.2]
  · intro h
    cases eo with
    | networkError => simp [examHas401] at h
    | got res =>
      simp only [examHas401, beq_iff_eq] at h
      have hok : respOk res = false := by
        simp [respOk, h]
      simp [fetchExamData, hok, h]
  · intro hf h401
    cases eo with
    | networkError => simp [fetchExamData]
    | got res =>
      simp only [examHas401, beq_eq_false_iff_ne] at h401
      by_cases hok : respOk res = true
      · have hbody : res.body.isNone := by
          simp only [examIsFailure, hok, Bool.not_true, Bool.false_or] at hf
          exact hf
        cases hs : res.body with
        | none => simp [fetchExamData, hok, hs]
        | some d => simp [hs] at hbody
      · have hok' : respOk res = false := by simpa using hok
        simp [fetchExamData, hok', h401]

/-- Per-department metadata entry of the multi-department response. -/
structure DeptMeta where
  id : JStr
  name : JStr
  status : JStr
  error : Option JStr
  studentCount : Int
deriving DecidableEq

/-- Result of loading one department on the backend. -/
inductive DeptOutcome
  | ok (name : JStr) (students : List Student)
  | failed (errMsg : Option JStr)
deriving DecidableEq

/-- JSON payload of `/api/dashboard/students/multi`; `departments` is
optional because the handler guards it with `data.departments || []`. -/
structure MultiPayload where
  success : Bool
  students : List Student
  summary : Int
  departments : Option (List DeptMeta)
deriving DecidableEq

/-- Embedding of `data.departments || []`. -/
def orNilMeta : Option (List DeptMeta) → List DeptMeta
  | none => []
  | some ms => ms

/-- Modelled from the spec: the backend multi-department aggregation route
(`/api/dashboard/students/multi`, absent from the repository snapshot).  Per
the spec there are "no partial-failure semantics beyond: this one department
failed to load, show the rest", so departments that load contribute their
students and the aggregate summary while failed departments contribute only
an error-status metadata entry. -/
def multiDeptBackend (results : List (JStr × DeptOutcome)) : MultiPayload :=
  let metas := results.map fun r =>
    match r.2 with
    | .ok name studs => ⟨r.1, name, "ok".toList, none, (studs.length : Int)⟩
    | .failed e => (⟨r.1, [], "error".toList, e, 0⟩ : DeptMeta)
  let studs := (results.filterMap fun r =>
    match r.2 with
    | .ok _ s => some s
    | .failed _ => none).flatten
  ⟨true, studs, (studs.length : Int), some metas⟩

/-- Client state touched by `fetchMultiDeptStudents`. -/
structure MultiState where
  loggedIn : Bool
  students : List Student
  summary : Option Int
  departmentMeta : List DeptMeta
  deptError : Option JStr
  error : Option JStr
deriving DecidableEq

/-- Outcome of the multi-department fetch. -/
inductive MultiFetchOutcome
  | networkError
  | got (res : HttpResp MultiPayload)
deriving DecidableEq

/-- Banner text of the multi-department failure path. -/
def errMultiMsg : JStr := "Failed to load multi-department data. Please try again.".toList

/-- Embedding of `d.error || d.id` (a present-but-empty error string is
falsy in JavaScript, so it falls back to the id). -/
def errorOrId (d : DeptMeta) : JStr :=
  match d.error with
  | some e => if e.isEmpty then d.id else e
  | none => d.id

/-- Embedding of `Array.prototype.join(', ')`. -/
def joinComma : List JStr → JStr
  | [] => []
  | [x] => x
  | x :: y :: rest => x ++ ", ".toList ++ joinComma (y :: rest)

/-- The inline warning built for failed departments:
`Could not load N department(s): ...`. -/
def fmtFailedDeptMsg (failed : List DeptMeta) : JStr :=
  "Could not load ".toList ++ (toString failed.length).toList ++
    " department(s): ".toList ++ joinComma (failed.map errorOrId)

/-- Embedding of `fetchMultiDeptStudents` from the Dashboard component:
clear the banner, log out on 401, raise the banner on other failures, and on
success store the merged students, summary and department metadata, warning
inline when some departments carry an error status. -/
def fetchMultiDeptStudents (st : MultiState) (o : MultiFetchOutcome) : MultiState :=
  let st0 := { st with error := none }
  match o with
  | .networkError => { st0 with error := some errMultiMsg }
  | .got res =>
    if !respOk res then
      if res.status == 401 then { st0 with loggedIn := false }
      else { st0 with error := some errMultiMsg }
    else
      match res.body with
      | some d =>
        if d.success then
          let metas := orNilMeta d.departments
          let st1 := { st0 with students := d.students, summary := some d.summary,
                                departmentMeta := metas }
          let failed := metas.filter fun m => m.status == "error".toList
          if failed.length > 0 then
            { st1 with deptError := some (fmtFailedDeptMsg failed) }
          else st1
        else st0
      | none => { st0 with error := some errMultiMsg }

/-- The ok response carrying the modelled backend aggregation. -/
def multiOkResponse (results : List (JStr × DeptOutcome)) : MultiFetchOutcome :=
  MultiFetchOutcome.got ⟨200, some (multiDeptBackend results)⟩

/-- Metadata entries with error status in the modelled backend response. -/
def failedMetas (results : List (JStr × DeptOutcome)) : List DeptMeta :=
  (orNilMeta (multiDeptBackend results).departments).filter fun m =>
    m.status == "error".toList

/-- C6: a multi-department load with some failed departments still succeeds
partially.  Every student of every department that loaded is displayed
(department failures never discard the loaded rows, which are exactly the
backend's merged list), and when at least one department failed the inline
warning is the message naming the failed-department count and their error
messages or ids, while with no failure the warning is untouched. -/
theorem multi_dept_partial_failure (st : MultiState)
    (results : List (JStr × DeptOutcome)) :
    (∀ idn nm studs s, (idn, DeptOutcome.ok nm studs) ∈ results → s ∈ studs →
        s ∈ (fetchMultiDeptStudents st (multiOkResponse results)).students) ∧
      (fetchMultiDeptStudents st (multiOkResponse results)).students =
        (multiDeptBackend results).students ∧
      (0 < (failedMetas results).length →
        (fetchMultiDeptStudents st (multiOkResponse results)).deptError =
          some (fmtFailedDeptMsg (failedMetas results))) ∧
      ((failedMetas results).length = 0 →
        (fetchMultiDeptStudents st (multiOkResponse results)).deptError = st.deptError) := by
  have hok : respOk (⟨200, some (multiDeptBackend results)⟩ : HttpResp MultiPayload) = true := by
    simp [respOk]
  have hstep : ∀ r : MultiState, r = fetchMultiDeptStudents st (multiOkResponse results) →
      r.students = (multiDeptBackend results).students ∧
      (0 < (failedMetas results).length →
        r.deptError = some (fmtFailedDeptMsg (failedMetas results))) ∧
      ((failedMetas results).length = 0 → r.deptError = st.deptError) := by
    intro r hr
    subst hr
    simp only [fetchMultiDeptStudents, multiOkResponse, hok, Bool.not_true,
      Bool.false_eq_true, if_false, reduceIte]
    by_cases hf : 0 < (failedMetas results).length
    · have hf' : ((orNilMeta (multiDeptBackend results).departments).filter fun m =>
          m.status == "error".toList).length > 0 := hf
      simp only [multiDeptBackend, orNilMeta] at hf' ⊢
      simp only [if_pos hf']
      refine ⟨rfl, fun _ => ?_, fun hz => ?_⟩
      · simp [failedMetas, multiDeptBackend, orNilMeta]
      · exact absurd hz (by omega)
    · have hf' : ¬(((orNilMeta (multiDeptBackend results).departments).filter fun m =>
          m.status == "error".toList).length > 0) := hf
      simp only [multiDeptBackend, orNilMeta] at hf' ⊢
      simp only [if_neg hf']
      exact ⟨rfl, fun hpos => absurd hpos hf, fun _ => rfl⟩
  obtain ⟨hstud, herr, hnoerr⟩ := hstep _ rfl
  refine ⟨?_, hstud, herr, hnoerr⟩
  intro idn nm studs s hmem hs
  rw [hstud]
  simp only [multiDeptBackend, List.mem_flatten]
  refine ⟨studs, ?_, hs⟩
  rw [List.mem_filterMap]
  exact ⟨(idn, DeptOutcome.ok nm studs), hmem, rfl⟩

/-- Concrete department results: one loads with two students, one fails. -/
def multiWitnessResults : List (JStr × DeptOutcome) :=
  [("11111111-1111-1111-1111-111111111111".toList,
      DeptOutcome.ok "Agency A".toList sortWitnessList),
   ("22222222-2222-2222-2222-222222222222".toList,
      DeptOutcome.failed (some "timeout".toList))]

/-- Concrete client state for the multi-department witness. -/
def multiWitnessState : MultiState := ⟨true, [], none, [], none, none⟩

theorem multi_dept_partial_failure_witness :
    aliceStudent ∈
        (fetchMultiDeptStudents multiWitnessState (multiOkResponse multiWitnessResults)).students ∧
      (fetchMultiDeptStudents multiWitnessState (multiOkResponse multiWitnessResults)).deptError =
        some (fmtFailedDeptMsg (failedMetas multiWitnessResults)) :=
  ⟨(multi_dept_partial_failure multiWitnessState multiWitnessResults).1
      ("11111111-1111-1111-1111-111111111111".toList) ("Agency A".toList)
      sortWitnessList aliceStudent (by decide) (by decide),
   (multi_dept_partial_failure multiWitnessState multiWitnessResults).2.2.1 (by decide)⟩

/-- Embedding of `Math.round` at exact rational inputs: round half away
from zero upward (ties toward positive infinity). -/
def jsRound (q : ℚ) : ℤ := ⌊q + 1 / 2⌋

/-- The row has a recorded exam result: `(s.passFail || '').trim() !== ''`. -/
def hasResult (s : ExamStudent) : Bool := !(jsTrim (orEmpty s.passFail)).isEmpty

/-- The row counts as passed: `(s.passFail || '').toUpperCase() === 'PASS'`. -/
def isPass (s : ExamStudent) : Bool := jsToUpper (orEmpty s.passFail) == "PASS".toList

/-- The row counts as failed: `(s.passFail || '').toUpperCase() === 'FAIL'`. -/
def isFail (s : ExamStudent) : Bool := jsToUpper (orEmpty s.passFail) == "FAIL".toList

/-- The row counts as upcoming in `recalcExamSummary`: parsed exam date in
the future and no recorded result.  `parse` abstracts `parseExamDateRaw`,
whose output only feeds this comparison. -/
def isUpcoming (parse : Option JStr → Int) (now : Int) (s : ExamStudent) : Bool :=
  decide (parse s.examDateRaw > now) && !hasResult s

/-- The row counts as at-risk: upcoming, matched in the LMS
(`s.matched !== false`) and `(s.progress?.value || 0) < 80`. -/
def isAtRisk (parse : Option JStr → Int) (now : Int) (s : ExamStudent) : Bool :=
  isUpcoming parse now s && !(s.matched == some false) &&
    decide (orZero s.progressValue < 80)

/-- Embedding of `recalcExamSummary` from the Dashboard component, run after
an exam-result or exam-date edit: recount the KPI fields from the updated
student list. -/
def recalcExamSummary (parse : Option JStr → Int) (now : Int)
    (students : List ExamStudent) : ExamSummary :=
  let total : Int := students.length
  let passed : Int := students.countP isPass
  let failed : Int := students.countP isFail
  let upcoming : Int := students.countP (isUpcoming parse now)
  let atRisk : Int := students.countP (isAtRisk parse now)
  let completedExams := passed + failed
  let passRate : ℚ :=
    if completedExams > 0 then
      (jsRound ((passed : ℚ) / (completedExams : ℚ) * 1000) : ℚ) / 10
    else 0
  ⟨total, passed, failed, upcoming, atRisk, passRate, total - passed - failed - upcoming⟩

/-- A rational rounded to one decimal place, JavaScript style. -/
def roundTo1dp (x : ℚ) : ℚ := (jsRound (x * 10) : ℚ) / 10

/-- C9: the KPI summary recomputed by `recalcExamSummary` satisfies
`passed + failed + upcoming + noResult = total`, `atRisk ≤ upcoming`, and the
pass rate is the pass percentage rounded to one decimal place when any exam
completed, and 0 otherwise. -/
theorem exam_summary_invariants (parse : Option JStr → Int) (now : Int)
    (l : List ExamStudent) :
    (recalcExamSummary parse now l).passed + (recalcExamSummary parse now l).failed +
        (recalcExamSummary parse now l).upcoming +
        (recalcExamSummary parse now l).noResult = (recalcExamSummary parse now l).total ∧
      (recalcExamSummary parse now l).atRisk ≤ (recalcExamSummary parse now l).upcoming ∧
      ((recalcExamSummary parse now l).passed + (recalcExamSummary parse now l).failed > 0 →
        (recalcExamSummary parse now l).passRate =
          roundTo1dp (100 * (recalcExamSummary parse now l).passed /
            ((recalcExamSummary parse now l).passed + (recalcExamSummary parse now l).failed))) ∧
      ((recalcExamSummary parse now l).passed + (recalcExamSummary parse now l).failed = 0 →
        (recalcExamSummary parse now l).passRate = 0) := by
  refine ⟨?_, ?_, ?_, ?_⟩
  · simp only [recalcExamSummary]
    ring
  · simp only [recalcExamSummary]
    have h := List.countP_mono_left (l := l) (p := isAtRisk parse now)
      (q := isUpcoming parse now) (fun s _ hs => by
        simp only [isAtRisk, Bool.and_eq_true] at hs
        exact hs.1.1)
    exact_mod_cast h
  · intro hpos
    simp only [recalcExamSummary] at hpos ⊢
    rw [if_pos hpos]
    unfold roundTo1dp
    have harg : ((l.countP isPass : Int) : ℚ) /
          (((l.countP isPass : Int) : ℚ) + ((l.countP isFail : Int) : ℚ)) * 1000 =
        100 * ((l.countP isPass : Int) : ℚ) /
          (((l.countP isPass : Int) : ℚ) + ((l.countP isFail : Int) : ℚ)) * 10 := by
      ring
    rw [Int.cast_add, harg]
  · intro hzero
    simp only [recalcExamSummary] at hzero ⊢
    rw [if_neg (by omega)]

/-- Concrete exam list with one pass and one fail for exercising the summary
invariants. -/
def examWitnessList : List ExamStudent :=
  [⟨"Dan".toList, "dan@x.com".toList, some "PASS".toList, some "1/9/2026".toList, some true, some 90⟩,
   ⟨"Eve".toList, "eve@x.com".toList, some "FAIL".toList, none, none, none⟩,
   ⟨"Fay".toList, "fay@x.com".toList, none, some "2/1/2026".toList, some true, some 40⟩]

/-- Trivial stand-in for `parseExamDateRaw` in the witness instantiation. -/
def examWitnessParse : Option JStr → Int := fun _ => 1

theorem exam_summary_invariants_witness :
    (recalcExamSummary examWitnessParse 0 examWitnessList).passed +
          (recalcExamSummary examWitnessParse 0 examWitnessList).failed +
          (recalcExamSummary examWitnessParse 0 examWitnessList).upcoming +
          (recalcExamSummary examWitnessParse 0 examWitnessList).noResult =
        (recalcExamSummary examWitnessParse 0 examWitnessList).total ∧
      (recalcExamSummary examWitnessParse 0 examWitnessList).passRate =
        roundTo1dp (100 * (recalcExamSummary examWitnessParse 0 examWitnessList).passed /
          ((recalcExamSummary examWitnessParse 0 examWitnessList).passed +
            (recalcExamSummary examWitnessParse 0 examWitnessList).failed)) :=
  ⟨(exam_summary_invariants examWitnessParse 0 examWitnessList).1,
   (exam_summary_invariants examWitnessParse 0 examWitnessList).2.2.1 (by decide)⟩

/-- Concrete dashboard state for exercising the fetch theorems. -/
def fetchWitnessDash : DashState := ⟨true, sortWitnessList, some 7, none⟩

/-- Concrete exam state for exercising the fetch theorems. -/
def fetchWitnessExam : ExamState := ⟨true, [], none, false, none⟩

theorem fetch_failure_classification_witness :
    (fetchDashboardData fetchWitnessDash
        (FetchOutcome.got ⟨401, none⟩ ⟨200, none⟩)).loggedIn = false ∧
      (fetchDashboardData fetchWitnessDash
          (FetchOutcome.got ⟨500, none⟩ ⟨200, none⟩)).error = some errDashboardMsg ∧
      (fetchExamData fetchWitnessExam ExamFetchOutcome.networkError).examStudents =
        fetchWitnessExam.examStudents :=
  ⟨(fetch_failure_classification fetchWitnessDash fetchWitnessExam
      (FetchOutcome.got ⟨401, none⟩ ⟨200, none⟩) ExamFetchOutcome.networkError).1
      (by decide),
   ((fetch_failure_classification fetchWitnessDash fetchWitnessExam
      (FetchOutcome.got ⟨500, none⟩ ⟨200, none⟩) ExamFetchOutcome.networkError).2.1
      (by decide) (by decide)).2.2.2,
   ((fetch_failure_classification fetchWitnessDash fetchWitnessExam
      FetchOutcome.networkError ExamFetchOutcome.networkError).2.2.2
      (by decide) (by decide)).2.1⟩

/-- Hexadecimal-digit test of the GUID pattern `[0-9a-fA-F]`. -/
def isHexDigit (c : Char) : Bool :=
  decide ('0' ≤ c ∧ c ≤ '9') || decide ('a' ≤ c ∧ c ≤ 'f') || decide ('A' ≤ c ∧ c ≤ 'F')

/-- Consume exactly `n` hexadecimal digits, returning the remainder. -/
def hexChunk (n : Nat) (s : JStr) : Option JStr :=
  if (s.take n).length = n && (s.take n).all isHexDigit then some (s.drop n) else none

/-- Consume a literal dash. -/
def dashChunk : JStr → Option JStr
  | '-' :: rest => some rest
  | _ => none

/-- Embedding of the anchored GUID regular expression in
`handleAddDepartment`: eight hex digits, then dash-separated groups of 4, 4,
4 and 12 hex digits, with nothing left over. -/
def guidTest (s : JStr) : Bool :=
  ((((((((hexChunk 8 s).bind dashChunk).bind (hexChunk 4)).bind dashChunk).bind
      (hexChunk 4)).bind dashChunk).bind (hexChunk 4)).bind dashChunk).bind
      (hexChunk 12) == some []

/-- Client state touched by `handleAddDepartment`. -/
structure DeptMgrState where
  deptInputValue : JStr
  extraDepartments : List JStr
  deptError : JStr
deriving DecidableEq

/-- Validation message for a malformed department id. -/
def invalidGuidMsg : JStr :=
  "Invalid Department ID format (must be a GUID like xxxxxxxx-xxxx-xxxx-xxxx-xxxxxxxxxxxx)".toList

/-- Validation message when the id is the primary department. -/
def primaryDeptMsg : JStr := "This is already your primary department".toList

/-- Validation message when the id was already added. -/
def alreadyAddedMsg : JStr := "Department already added".toList

/-- Validation message when ten extra departments already exist. -/
def maxDeptMsg : JStr := "Maximum 10 additional departments".toList

/-- Embedding of `department?.id?.toLowerCase()` comparison against the
trimmed id: comparing with an absent primary id is false in JavaScript. -/
def matchesPrimary (primaryId : Option JStr) (id : JStr) : Bool :=
  match primaryId with
  | some p => jsToLower id == jsToLower p
  | none => false

/-- Embedding of `handleAddDepartment` from the Dashboard component: trim
the input, validate GUID shape, primary-department clash, case-insensitive
duplication and the ten-department cap, and only then clear the error and
input and append the id. -/
def handleAddDepartment (primaryId : Option JStr) (st : DeptMgrState) : DeptMgrState :=
  let id := jsTrim st.deptInputValue
  if !guidTest id then { st with deptError := invalidGuidMsg }
  else if matchesPrimary primaryId id then { st with deptError := primaryDeptMsg }
  else if st.extraDepartments.any fun d => jsToLower d == jsToLower id then
    { st with deptError := alreadyAddedMsg }
  else if 10 ≤ st.extraDepartments.length then { st with deptError := maxDeptMsg }
  else ⟨[], st.extraDepartments ++ [id], []⟩

/-- All the guards of `handleAddDepartment` pass. -/
def addOkCond (primaryId : Option JStr) (st : DeptMgrState) : Bool :=
  guidTest (jsTrim st.deptInputValue) &&
    !matchesPrimary primaryId (jsTrim st.deptInputValue) &&
    !(st.extraDepartments.any fun d => jsToLower d == jsToLower (jsTrim st.deptInputValue)) &&
    decide (st.extraDepartments.length < 10)

/-- The extra-departments list holds no case-insensitive duplicates. -/
abbrev noCaseDups (l : List JStr) : Prop :=
  l.Pairwise fun a b => jsToLower a ≠ jsToLower b

/-- C10: adding an extra department appends the trimmed id exactly when it is
a well-formed GUID, is not the primary department, is not already present
case-insensitively, and fewer than ten extras exist; every failing case
leaves the list unchanged and sets a nonempty inline error.  Consequently a
list of at most ten entries without case-insensitive duplicates keeps both
properties across the operation. -/
theorem add_department_guarded (primaryId : Option JStr) (st : DeptMgrState) :
    (addOkCond primaryId st = true →
      (handleAddDepartment primaryId st).extraDepartments =
          st.extraDepartments ++ [jsTrim st.deptInputValue] ∧
        (handleAddDepartment primaryId st).deptError = []) ∧
    (addOkCond primaryId st = false →
      (handleAddDepartment primaryId st).extraDepartments = st.extraDepartments ∧
        (handleAddDepartment primaryId st).deptError ≠ []) ∧
    (st.extraDepartments.length ≤ 10 →
      (handleAddDepartment primaryId st).extraDepartments.length ≤ 10) ∧
    (noCaseDups st.extraDepartments →
      noCaseDups (handleAddDepartment primaryId st).extraDepartments) := by
  by_cases hg : guidTest (jsTrim st.deptInputValue) = true
  · by_cases hp : matchesPrimary primaryId (jsTrim st.deptInputValue) = true
    · refine ⟨fun hok => ?_, fun _ => ?_, fun hlen => ?_, fun hdup => ?_⟩ <;>
        simp_all [handleAddDepartment, addOkCond, primaryDeptMsg]
    · by_cases hd : (st.extraDepartments.any fun d =>
          jsToLower d == jsToLower (jsTrim st.deptInputValue)) = true
      · refine ⟨fun hok => ?_, fun _ => ?_, fun hlen => ?_, fun hdup => ?_⟩
        · exact absurd hok (by simp [addOkCond, hd])
        · refine ⟨by simp [handleAddDepartment, hg, hp, hd], ?_⟩
          have : (handleAddDepartment primaryId st).deptError = alreadyAddedMsg := by
            simp [handleAddDepartment, hg, hp, hd]
          rw [this]
          decide
        · simpa [handleAddDepartment, hg, hp, hd] using hlen
        · simpa [handleAddDepartment, hg, hp, hd, noCaseDups] using hdup
      · by_cases hl : st.extraDepartments.length < 10
        · have hok : addOkCond primaryId st = true := by
            simp [addOkCond, hg, hp, hd, hl]
          have hrun : handleAddDepartment primaryId st =
              ⟨[], st.extraDepartments ++ [jsTrim st.deptInputValue], []⟩ := by
            simp [handleAddDepartment, hg, hp, hd]
            omega
          refine ⟨fun _ => by simp [hrun], fun hbad => absurd hok (by simp [hbad]),
            fun hlen => ?_, fun hdup => ?_⟩
          · simp only [hrun, List.length_append, List.length_cons, List.length_nil]
            omega
          · simp only [hrun, noCaseDups]
            rw [List.pairwise_append]
            refine ⟨hdup, by simp, ?_⟩
            intro a ha b hb
            simp only [List.mem_singleton] at hb
            subst hb
            intro hcontra
            have : (st.extraDepartments.any fun d =>
                jsToLower d == jsToLower (jsTrim st.deptInputValue)) = true := by
              rw [List.any_eq_true]
              exact ⟨a, ha, by simp [hcontra]⟩
            exact hd this
        · have hok : addOkCond primaryId st = false := by
            simp [addOkCond, hg, hp, hd]
            omega
          have hrun : handleAddDepartment primaryId st =
              { st with deptError := maxDeptMsg } := by
            simp [handleAddDepartment, hg, hp, hd]
            omega
          exact ⟨fun hbad => absurd hok (by simp [hbad]),
            fun _ => ⟨by simp [hrun], by simp [hrun, maxDeptMsg]⟩,
            fun hlen => by simpa [hrun] using hlen,
            fun hdup => by simpa [hrun, noCaseDups] using hdup⟩
  · refine ⟨fun hok => ?_, fun _ => ?_, fun hlen => ?_, fun hdup => ?_⟩ <;>
      simp_all [handleAddDepartment, addOkCond, invalidGuidMsg]

/-- Concrete department-manager state entering a fresh valid GUID. -/
def addWitnessState : DeptMgrState :=
  ⟨"a1b2c3d4-e5f6-7890-abcd-ef1234567890".toList,
   ["11111111-1111-1111-1111-111111111111".toList], []⟩

/-- Concrete primary department id for the witness. -/
def addWitnessPrimary : Option JStr := some "22222222-2222-2222-2222-222222222222".toList

theorem add_department_guarded_witness :
    ((handleAddDepartment addWitnessPrimary addWitnessState).extraDepartments =
        addWitnessState.extraDepartments ++ [jsTrim addWitnessState.deptInputValue] ∧
      (handleAddDepartment addWitnessPrimary addWitnessState).deptError = []) ∧
      (handleAddDepartment addWitnessPrimary addWitnessState).extraDepartments.length ≤ 10 ∧
      noCaseDups (handleAddDepartment addWitnessPrimary addWitnessState).extraDepartments :=
  ⟨(add_department_guarded addWitnessPrimary addWitnessState).1 (by decide),
   (add_department_guarded addWitnessPrimary addWitnessState).2.2.1 (by decide),
   (add_department_guarded addWitnessPrimary addWitnessState).2.2.2 (by decide)⟩

/-- Modelled from the spec: the backend status classification (in the
README's `backend/utils/formatters.py` layout, absent from the repository
snapshot).  Per the spec and the README legend, elapsed hours since last
login map to a label by threshold comparison: under 24 hours is `active`,
from 24 up to 72 hours is `warning`, and from 72 hours on is `re-engage`. -/
def statusOfElapsedHours (h : ℚ) : JStr :=
  if h < 24 then "active".toList
  else if h < 72 then "warning".toList
  else "re-engage".toList

/-- C1: the status label is a deterministic threshold function of elapsed
hours into the fixed label set, with the boundaries exactly at 24h and 72h:
strictly below 24h is `active` (23h59m included), from 24h up to but
excluding 72h is `warning` (71h59m included), and from 72h on is
`re-engage`. -/
theorem status_label_thresholds :
    (∀ h : ℚ, h < 24 → statusOfElapsedHours h = "active".toList) ∧
      (∀ h : ℚ, 24 ≤ h → h < 72 → statusOfElapsedHours h = "warning".toList) ∧
      (∀ h : ℚ, 72 ≤ h → statusOfElapsedHours h = "re-engage".toList) ∧
      (∀ h : ℚ, statusOfElapsedHours h = "active".toList ∨
        statusOfElapsedHours h = "warning".toList ∨
        statusOfElapsedHours h = "re-engage".toList) ∧
      statusOfElapsedHours (23 + 59 / 60) = "active".toList ∧
      statusOfElapsedHours 24 = "warning".toList ∧
      statusOfElapsedHours (71 + 59 / 60) = "warning".toList ∧
      statusOfElapsedHours 72 = "re-engage".toList := by
  refine ⟨fun h hl => ?_, fun h hg hl => ?_, fun h hg => ?_, fun h => ?_, ?_, ?_, ?_, ?_⟩
  · simp [statusOfElapsedHours, hl]
  · rw [statusOfElapsedHours, if_neg (by linarith), if_pos hl]
  · rw [statusOfElapsedHours, if_neg (by linarith), if_neg (by linarith)]
  · unfold statusOfElapsedHours
    split
    · exact Or.inl rfl
    · split
      · exact Or.inr (Or.inl rfl)
      · exact Or.inr (Or.inr rfl)
  · rw [statusOfElapsedHours, if_pos (by norm_num)]
  · rw [statusOfElapsedHours, if_neg (by norm_num), if_pos (by norm_num)]
  · rw [statusOfElapsedHours, if_neg (by norm_num), if_pos (by norm_num)]
  · rw [statusOfElapsedHours, if_neg (by norm_num), if_neg (by norm_num)]

theorem status_label_thresholds_witness :
    statusOfElapsedHours 3 = "active".toList ∧
      statusOfElapsedHours 30 = "warning".toList ∧
      statusOfElapsedHours 100 = "re-engage".toList :=
  ⟨status_label_thresholds.1 3 (by norm_num),
   status_label_thresholds.2.1 30 (by norm_num) (by norm_num),
   status_label_thresholds.2.2.1 100 (by norm_num)⟩

/-- Modelled from the spec: the underlying study-activity measurements of
the backend readiness calculator (absent from the repository snapshot),
"computed on read from LMS enrollment data against fixed thresholds". -/
structure ReadinessInputs where
  consecutivePassing : Nat
  hoursLogged : ℚ
  hoursRequired : ℚ
  stateLawCompletions : Nat
  stateLawHours : ℚ
  lifeVideoMinutes : ℚ
  healthVideoMinutes : ℚ
deriving DecidableEq

/-- Modelled from the spec: practice-exam criterion, at least 3 consecutive
passing practice scores. -/
def practiceExamsMet (i : ReadinessInputs) : Bool := decide (3 ≤ i.consecutivePassing)

/-- Modelled from the spec: hours-in-course criterion, hours logged at least
the required hours. -/
def timeInCourseMet (i : ReadinessInputs) : Bool := decide (i.hoursRequired ≤ i.hoursLogged)

/-- Modelled from the spec: state-law criterion, at least one completion and
at least 1.5 hours spent. -/
def stateLawsMet (i : ReadinessInputs) : Bool :=
  decide (1 ≤ i.stateLawCompletions) && decide ((3 / 2 : ℚ) ≤ i.stateLawHours)

/-- Modelled from the spec: video criterion, at least 30 watched minutes in
each category. -/
def videosMet (i : ReadinessInputs) : Bool :=
  decide ((30 : ℚ) ≤ i.lifeVideoMinutes) && decide ((30 : ℚ) ≤ i.healthVideoMinutes)

/-- Modelled from the spec: the readiness result as the conjunction of the
four criteria. -/
def readinessResult (i : ReadinessInputs) : Bool :=
  practiceExamsMet i && timeInCourseMet i && stateLawsMet i && videosMet i

/-- C2: readiness is the conjunction of the four independent boolean
criteria, and each criterion's met flag is determined solely by its own
underlying measurements: replacing the value behind one criterion computes
that criterion's flag from the new value alone (so crossing the threshold
flips it) and leaves every other criterion's flag unchanged. -/
theorem readiness_conjunction_independent :
    (∀ i : ReadinessInputs, readinessResult i = true ↔
      (3 ≤ i.consecutivePassing ∧ i.hoursRequired ≤ i.hoursLogged ∧
        (1 ≤ i.stateLawCompletions ∧ (3 / 2 : ℚ) ≤ i.stateLawHours) ∧
        ((30 : ℚ) ≤ i.lifeVideoMinutes ∧ (30 : ℚ) ≤ i.healthVideoMinutes))) ∧
    (∀ (i : ReadinessInputs) (v : Nat),
      practiceExamsMet { i with consecutivePassing := v } = decide (3 ≤ v) ∧
      timeInCourseMet { i with consecutivePassing := v } = timeInCourseMet i ∧
      stateLawsMet { i with consecutivePassing := v } = stateLawsMet i ∧
      videosMet { i with consecutivePassing := v } = videosMet i) ∧
    (∀ (i : ReadinessInputs) (v : ℚ),
      timeInCourseMet { i with hoursLogged := v } = decide (i.hoursRequired ≤ v) ∧
      practiceExamsMet { i with hoursLogged := v } = practiceExamsMet i ∧
      stateLawsMet { i with hoursLogged := v } = stateLawsMet i ∧
      videosMet { i with hoursLogged := v } = videosMet i) ∧
    (∀ (i : ReadinessInputs) (v : ℚ),
      stateLawsMet { i with stateLawHours := v } =
          (decide (1 ≤ i.stateLawCompletions) && decide ((3 / 2 : ℚ) ≤ v)) ∧
      practiceExamsMet { i with stateLawHours := v } = practiceExamsMet i ∧
      timeInCourseMet { i with stateLawHours := v } = timeInCourseMet i ∧
      videosMet { i with stateLawHours := v } = videosMet i) ∧
    (∀ (i : ReadinessInputs) (v : ℚ),
      videosMet { i with lifeVideoMinutes := v } =
          (decide ((30 : ℚ) ≤ v) && decide ((30 : ℚ) ≤ i.healthVideoMinutes)) ∧
      practiceExamsMet { i with lifeVideoMinutes := v } = practiceExamsMet i ∧
      timeInCourseMet { i with lifeVideoMinutes := v } = timeInCourseMet i ∧
      stateLawsMet { i with lifeVideoMinutes := v } = stateLawsMet i) := by
  refine ⟨fun i => ?_, fun i v => ⟨rfl, rfl, rfl, rfl⟩, fun i v => ⟨rfl, rfl, rfl, rfl⟩,
    fun i v => ⟨rfl, rfl, rfl, rfl⟩, fun i v => ⟨rfl, rfl, rfl, rfl⟩⟩
  simp [readinessResult, practiceExamsMet, timeInCourseMet, stateLawsMet, videosMet,
    and_assoc]
